import Mathlib

/-!
Shallow embedding of the two request handlers of the k8s-observability-stack
repository: the API gateway endpoint `get_user` (src/services/api-gateway/main.py)
and the user-service endpoint `get_user_internal` (src/services/user-service/main.py),
together with the OpenTelemetry span/counter machinery they rely on.

Modelling conventions:
* Trace and span identifiers are `Nat` (the real ones are random 128/64-bit
  values; their numeric width plays no role in the properties below).
* The `with tracer.start_as_current_span(name) as span:` context manager is
  embedded as `withSpan`: the body runs with a fresh span, the span is ended
  on every exit path, and an exception escaping the block sets the span
  status to Error before ending (the OTel defaults end_on_exit and
  set_status_on_exception).
* W3C traceparent propagation performed by the configured instrumentation
  (HTTPXClientInstrumentor injecting on the outbound call, FastAPIInstrumentor
  extracting on the inbound request) is modelled at the decoded level:
  `Headers` carries the propagated span context or `none` when the header is
  absent or malformed. Intermediate library-generated spans are elided; the
  propagated identifiers are threaded directly, so the span opened by a
  handler is a child of the context that the caller injected.
* Counter increments, span starts and span ends are recorded as an event
  list so that lifecycle and ordering properties can be stated.
-/

namespace Otel

/-- Scalar attribute values usable on a span (string, boolean, integer). -/
inductive AttrValue where
  | str (s : String)
  | bool (b : Bool)
  | int (n : Int)
  deriving DecidableEq, Repr

/-- OTel span status: Unset by default; Ok and Error only when explicitly
set (or set by the context manager on an escaping exception). -/
inductive SpanStatus where
  | unset
  | ok
  | error
  deriving DecidableEq, Repr

/-- A span record: identifiers, attributes in write order, status, and an
end counter (`endCount`) tracking how many times `end` sealed it. -/
structure Span where
  name : String
  traceId : Nat
  spanId : Nat
  parentSpanId : Option Nat
  attributes : List (String × AttrValue)
  status : SpanStatus
  ended : Bool
  endCount : Nat
  deriving DecidableEq, Repr

/-- `span.set_attribute(key, value)`: appended in write order. -/
def Span.setAttribute (s : Span) (k : String) (v : AttrValue) : Span :=
  { s with attributes := s.attributes ++ [(k, v)] }

/-- Read an attribute; the last write for a key wins. -/
def Span.getAttribute (s : Span) (k : String) : Option AttrValue :=
  List.lookup k s.attributes.reverse

/-- `span.end()`: sealing an already-ended span is a no-op. -/
def Span.endSpan (s : Span) : Span :=
  if s.ended then s else { s with ended := true, endCount := s.endCount + 1 }

/-- A freshly started span with the given identifiers. -/
def startSpan (name : String) (traceId spanId : Nat) (parent : Option Nat) : Span :=
  { name := name, traceId := traceId, spanId := spanId, parentSpanId := parent,
    attributes := [], status := SpanStatus.unset, ended := false, endCount := 0 }

/-- String-tagged attribute set of a counter increment. -/
abbrev Tags := List (String × String)

/-- Telemetry events emitted while handling one request. -/
inductive Event where
  | spanStart (spanId : Nat) (name : String)
  | spanEnd (spanId : Nat)
  | counterAdd (counter : String) (delta : Nat) (tags : Tags)
  deriving DecidableEq, Repr

/-- The span context carried by W3C traceparent propagation: trace id, the
id of the span current at injection time, and the sampled flag. -/
structure SpanContext where
  traceId : Nat
  spanId : Nat
  sampled : Bool
  deriving DecidableEq, Repr

/-- Propagation headers, at the decoded level. `none` models a request whose
traceparent header is absent or malformed; extraction then degrades to a new
trace root rather than failing the request. -/
abbrev Headers := Option SpanContext

/-- `inject`: serialize the current span context into outbound headers. -/
def inject (c : SpanContext) : Headers := some c

/-- Embeds `with tracer.start_as_current_span(name) as span:`. The body
returns the mutated span, the events it emitted, and either a value or an
escaping exception. The context manager ends the span on both paths and
records status Error when an exception escapes. The returned event list
brackets the body events with the span start and end. -/
def withSpan {E A : Type} (name : String) (traceId spanId : Nat) (parent : Option Nat)
    (body : Span → Span × List Event × Except E A) :
    Except E A × Span × List Event :=
  let s0 := startSpan name traceId spanId parent
  let r := body s0
  let sealed : Span :=
    match r.2.2 with
    | Except.ok _ => r.1.endSpan
    | Except.error _ => { r.1 with status := SpanStatus.error }.endSpan
  (r.2.2, sealed, Event.spanStart spanId name :: r.2.1 ++ [Event.spanEnd spanId])

/-- JSON scalar values appearing in the response bodies of this system. -/
inductive JVal where
  | jstr (s : String)
  | jnum (n : Int)
  | jbool (b : Bool)
  deriving DecidableEq, Repr

/-- A JSON object, as a field list. -/
abbrev JObj := List (String × JVal)

/-- An HTTP response as seen by a caller: status code and JSON body. -/
structure HttpResponse where
  status : Nat
  body : JObj
  deriving DecidableEq, Repr

/-- One handler invocation: the response it produced, the spans it sealed,
and the telemetry events it emitted, in order. -/
structure ServiceRun where
  response : HttpResponse
  spans : List Span
  events : List Event
  deriving DecidableEq, Repr

end Otel

namespace UserService

open Otel

/-- A user record of the fake database. -/
structure User where
  id : String
  username : String
  email : String
  deriving DecidableEq, Repr

/-- The JSON object FastAPI serializes a returned user dict into. -/
def User.toJson (u : User) : JObj :=
  [("id", JVal.jstr u.id), ("username", JVal.jstr u.username),
   ("email", JVal.jstr u.email)]

/-- The fake in-memory database of src/services/user-service/main.py. -/
def FAKE_DB : List (String × User) :=
  [("123", { id := "123", username := "otelfan", email := "otel@example.com" }),
   ("456", { id := "456", username := "tracing_rocks", email := "trace@example.com" })]

/-- The exception raised by the handler: `HTTPException(status_code, detail)`. -/
structure HTTPException where
  status_code : Nat
  detail : String
  deriving DecidableEq, Repr

/-- The body of `get_user_internal` (src/services/user-service/main.py,
lines 105-128), given the identifiers of the span it opens: look the user
up in FAKE_DB; on a miss increment the lookup counter tagged
user.found="false", set error=True and user.found=False on the span and
raise HTTPException 404; on a hit increment the counter tagged
user.found="true", set user.found=True and user.username, return the user. -/
def get_user_internal (userId : String) (traceId spanId : Nat) (parent : Option Nat) :
    ServiceRun :=
  let r := withSpan (E := HTTPException) (A := User) "find_user_in_db" traceId spanId parent
    (fun span =>
      let span := span.setAttribute "user.id" (AttrValue.str userId)
      match List.lookup userId FAKE_DB with
      | none =>
          let evts := [Event.counterAdd "db.user.lookups" 1 [("user.found", "false")]]
          let span := span.setAttribute "error" (AttrValue.bool true)
          let span := span.setAttribute "user.found" (AttrValue.bool false)
          (span, evts, Except.error { status_code := 404, detail := "User not found" })
      | some user =>
          let evts := [Event.counterAdd "db.user.lookups" 1 [("user.found", "true")]]
          let span := span.setAttribute "user.found" (AttrValue.bool true)
          let span := span.setAttribute "user.username" (AttrValue.str user.username)
          (span, evts, Except.ok user))
  match r.1 with
  | Except.ok user =>
      { response := { status := 200, body := user.toJson },
        spans := [r.2.1], events := r.2.2 }
  | Except.error e =>
      { response := { status := e.status_code, body := [("detail", JVal.jstr e.detail)] },
        spans := [r.2.1], events := r.2.2 }

/-- The inbound side of the user service: the configured FastAPIInstrumentor
extracts the propagated context from the request headers; a missing or
malformed header starts a new trace root with a fresh trace id. The handler
span is a child of the extracted context. -/
def handle (userId : String) (headers : Headers) (freshTraceId spanId : Nat) :
    ServiceRun :=
  match headers with
  | some ctx => get_user_internal userId ctx.traceId spanId (some ctx.spanId)
  | none => get_user_internal userId freshTraceId spanId none

end UserService

namespace Gateway

open Otel

/-- What the outbound `client.get(...)` call produced, as seen by the
gateway after awaiting it: an HTTP exchange that completed with a status
code and a body (`none` when the body is not decodable JSON, so that
`response.json()` raises), or a transport failure (connection failure,
timeout) in which the call itself raised. -/
inductive DownstreamOutcome where
  | reply (status : Nat) (body : Option JObj)
  | failure
  deriving DecidableEq, Repr

/-- The downstream exchange together with the telemetry the callee emitted
while handling it (empty when the call never reached the callee). -/
structure DownstreamResult where
  outcome : DownstreamOutcome
  calleeSpans : List Span
  calleeEvents : List Event
  deriving DecidableEq, Repr

/-- One gateway invocation: the outward HTTP response, the gateway span,
the gateway events, and the telemetry of the callee it contacted. -/
structure GatewayRun where
  response : HttpResponse
  span : Span
  events : List Event
  calleeSpans : List Span
  calleeEvents : List Event
  deriving DecidableEq, Repr

/-- The error body the gateway returns on an `httpx.HTTPStatusError`. -/
def downstreamErrorBody (st : Nat) : JObj :=
  [("error", JVal.jstr "Failed to retrieve user data"),
   ("status", JVal.jnum (Int.ofNat st))]

/-- The error body the gateway returns on any other exception. -/
def internalErrorBody : JObj :=
  [("error", JVal.jstr "Internal server error")]

/-- Whether `response.raise_for_status()` passes: httpx raises
HTTPStatusError for every non-2xx status. -/
def isSuccessStatus (st : Nat) : Bool :=
  decide (200 ≤ st) && decide (st ≤ 299)

/-- The body of `get_user` (src/services/api-gateway/main.py, lines
101-123), given the identifiers of the span it opens and the behavior of
the downstream call (a function of the injected propagation headers, as
the instrumented httpx client attaches them). Before the span opens, the
request counter is incremented tagged with the path user id. Inside the
span: set user.id; issue the call. On a completed 2xx exchange with a
decodable body: set http.status_code and return the decoded body. On
HTTPStatusError (non-2xx): set http.status_code from the downstream reply
and return the typed not-found/error dict. On any other exception
(transport failure or undecodable body): set error=True and return the
generic internal-error dict. Every branch returns a dict, so FastAPI sends
HTTP 200 outward in all cases. -/
def get_user (userId : String) (traceId spanId : Nat) (parent : Option Nat)
    (downstream : Headers → DownstreamResult) : GatewayRun :=
  let counterEvt := Event.counterAdd "api.user.requests" 1 [("user.id.path", userId)]
  let dres := downstream (inject { traceId := traceId, spanId := spanId, sampled := true })
  let r := withSpan (E := Empty) (A := JObj) "get_user_handler" traceId spanId parent
    (fun span =>
      let span := span.setAttribute "user.id" (AttrValue.str userId)
      match dres.outcome with
      | DownstreamOutcome.failure =>
          (span.setAttribute "error" (AttrValue.bool true), [], Except.ok internalErrorBody)
      | DownstreamOutcome.reply st body =>
          if isSuccessStatus st then
            match body with
            | some userData =>
                (span.setAttribute "http.status_code" (AttrValue.int (Int.ofNat st)),
                 [], Except.ok userData)
            | none =>
                (span.setAttribute "error" (AttrValue.bool true),
                 [], Except.ok internalErrorBody)
          else
            (span.setAttribute "http.status_code" (AttrValue.int (Int.ofNat st)),
             [], Except.ok (downstreamErrorBody st)))
  let body := match r.1 with
    | Except.ok b => b
    | Except.error e => e.elim
  { response := { status := 200, body := body },
    span := r.2.1,
    events := counterEvt :: r.2.2,
    calleeSpans := dres.calleeSpans,
    calleeEvents := dres.calleeEvents }

end Gateway

namespace SystemModel

open Otel UserService Gateway

/-- The downstream behavior when the network is up: the call reaches the
user service, which handles it with the propagated headers, and the
gateway receives its status and JSON body. -/
def callUserService (userId : String) (usFreshTraceId usSpanId : Nat)
    (h : Headers) : DownstreamResult :=
  let run := UserService.handle userId h usFreshTraceId usSpanId
  { outcome := DownstreamOutcome.reply run.response.status (some run.response.body),
    calleeSpans := run.spans, calleeEvents := run.events }

/-- The downstream behavior when the user service is unreachable: the
outbound call raises and no callee telemetry exists. -/
def transportDown : Headers → DownstreamResult :=
  fun _ => { outcome := DownstreamOutcome.failure, calleeSpans := [], calleeEvents := [] }

/-- End-to-end handling of one external request through both services: the
gateway opens a root span (no inbound propagation context) and its outbound
call reaches the user service. -/
def handle (userId : String) (gwTraceId gwSpanId usFreshTraceId usSpanId : Nat) :
    GatewayRun :=
  Gateway.get_user userId gwTraceId gwSpanId none
    (callUserService userId usFreshTraceId usSpanId)

end SystemModel

namespace Otel

/-- Number of span-start events in a trace. -/
def countStarts (evts : List Event) : Nat :=
  (evts.filter fun e => match e with
    | Event.spanStart _ _ => true
    | _ => false).length

/-- Number of span-end events in a trace. -/
def countEnds (evts : List Event) : Nat :=
  (evts.filter fun e => match e with
    | Event.spanEnd _ => true
    | _ => false).length

/-- The counter increments of a trace, as (counter, delta, tags) triples in
emission order. -/
def counterAdds (evts : List Event) : List (String × Nat × Tags) :=
  evts.filterMap fun e => match e with
    | Event.counterAdd n d t => some (n, d, t)
    | _ => none

/-- Every counter increment of the trace has delta exactly 1 (in
particular, every delta is positive). -/
def allAddsUnit (evts : List Event) : Bool :=
  (counterAdds evts).all fun x => x.2.1 == 1

/-- A counter value is keyed by counter name and attribute-tag combination. -/
abbrev CounterKey := String × Tags

/-- The accumulated counter values of the process, as an association list. -/
abbrev CounterState := List (CounterKey × Nat)

/-- The value associated with a key; an untouched combination reads 0. -/
def counterValue : CounterState → CounterKey → Nat
  | [], _ => 0
  | (k2, v) :: rest, k => if k2 = k then v else counterValue rest k

/-- Store a value for a key, leaving every other key unchanged. -/
def setCounter : CounterState → CounterKey → Nat → CounterState
  | [], k, v => [(k, v)]
  | (k2, v2) :: rest, k, v =>
      if k2 = k then (k, v) :: rest else (k2, v2) :: setCounter rest k v

/-- `CounterHandle.add(delta, attributes)`: the only counter mutation the
model has adds the delta to the value of the addressed key. Span events do
not touch counters. -/
def applyEvent (st : CounterState) (e : Event) : CounterState :=
  match e with
  | Event.counterAdd n d t => setCounter st (n, t) (counterValue st (n, t) + d)
  | _ => st

/-- Replay a trace of events onto the counter state. -/
def applyEvents (st : CounterState) (evts : List Event) : CounterState :=
  evts.foldl applyEvent st

theorem counterValue_setCounter_self (st : CounterState) (k : CounterKey) (v : Nat) :
    counterValue (setCounter st k v) k = v := by
  induction st with
  | nil => simp [setCounter, counterValue]
  | cons hd rest ih =>
      obtain ⟨k2, v2⟩ := hd
      by_cases hk : k2 = k
      · simp [setCounter, hk, counterValue]
      · simp [setCounter, hk, counterValue, ih]

theorem counterValue_setCounter_other (st : CounterState) (k k2 : CounterKey)
    (v : Nat) (hk : k ≠ k2) :
    counterValue (setCounter st k v) k2 = counterValue st k2 := by
  induction st with
  | nil => simp [setCounter, counterValue, hk]
  | cons hd rest ih =>
      obtain ⟨k3, v3⟩ := hd
      by_cases h3 : k3 = k
      · subst h3
        simp [setCounter, counterValue, hk]
      · simp [setCounter, h3, counterValue, ih]

theorem counterValue_applyEvent_le (st : CounterState) (e : Event) (k : CounterKey) :
    counterValue st k ≤ counterValue (applyEvent st e) k := by
  cases e with
  | spanStart sid n => exact Nat.le_refl _
  | spanEnd sid => exact Nat.le_refl _
  | counterAdd n d t =>
      by_cases hk : (n, t) = k
      · subst hk
        rw [applyEvent, counterValue_setCounter_self]
        exact Nat.le_add_right _ _
      · rw [applyEvent, counterValue_setCounter_other _ _ _ _ hk]

theorem counterValue_applyEvents_le (evts : List Event) (st : CounterState)
    (k : CounterKey) :
    counterValue st k ≤ counterValue (applyEvents st evts) k := by
  induction evts generalizing st with
  | nil => exact Nat.le_refl _
  | cons e rest ih =>
      exact Nat.le_trans (counterValue_applyEvent_le st e k)
        (by simpa [applyEvents] using ih (applyEvent st e))

end Otel

namespace UserService

open Otel

/-- The complete run of `get_user_internal` on a user id present in
FAKE_DB. -/
theorem get_user_internal_found_eq (userId : String) (tid sid : Nat)
    (p : Option Nat) (u : User) (h : List.lookup userId FAKE_DB = some u) :
    get_user_internal userId tid sid p =
      { response := { status := 200, body := u.toJson },
        spans := [{ name := "find_user_in_db", traceId := tid, spanId := sid,
                    parentSpanId := p,
                    attributes := [("user.id", AttrValue.str userId),
                                   ("user.found", AttrValue.bool true),
                                   ("user.username", AttrValue.str u.username)],
                    status := SpanStatus.unset, ended := true, endCount := 1 }],
        events := [Event.spanStart sid "find_user_in_db",
                   Event.counterAdd "db.user.lookups" 1 [("user.found", "true")],
                   Event.spanEnd sid] } := by
  simp [get_user_internal, withSpan, h, startSpan, Span.setAttribute, Span.endSpan]

/-- The complete run of `get_user_internal` on a user id absent from
FAKE_DB: the HTTPException escapes the span block, so the span is sealed
with status Error, and FastAPI turns the exception into a 404 response. -/
theorem get_user_internal_notfound_eq (userId : String) (tid sid : Nat)
    (p : Option Nat) (h : List.lookup userId FAKE_DB = none) :
    get_user_internal userId tid sid p =
      { response := { status := 404, body := [("detail", JVal.jstr "User not found")] },
        spans := [{ name := "find_user_in_db", traceId := tid, spanId := sid,
                    parentSpanId := p,
                    attributes := [("user.id", AttrValue.str userId),
                                   ("error", AttrValue.bool true),
                                   ("user.found", AttrValue.bool false)],
                    status := SpanStatus.error, ended := true, endCount := 1 }],
        events := [Event.spanStart sid "find_user_in_db",
                   Event.counterAdd "db.user.lookups" 1 [("user.found", "false")],
                   Event.spanEnd sid] } := by
  simp [get_user_internal, withSpan, h, startSpan, Span.setAttribute, Span.endSpan]

end UserService

namespace Gateway

open Otel

/-- The propagation context the gateway injects into its outbound call. -/
def outboundCtx (tid sid : Nat) : SpanContext :=
  { traceId := tid, spanId := sid, sampled := true }

/-- The complete gateway run when the downstream exchange completes with a
2xx status and a decodable JSON body. -/
theorem get_user_success_eq (userId : String) (tid sid : Nat) (p : Option Nat)
    (d : Headers → DownstreamResult) (st : Nat) (b : JObj)
    (ho : (d (inject (outboundCtx tid sid))).outcome = DownstreamOutcome.reply st (some b))
    (hst : isSuccessStatus st = true) :
    get_user userId tid sid p d =
      { response := { status := 200, body := b },
        span := { name := "get_user_handler", traceId := tid, spanId := sid,
                  parentSpanId := p,
                  attributes := [("user.id", AttrValue.str userId),
                                 ("http.status_code", AttrValue.int (Int.ofNat st))],
                  status := SpanStatus.unset, ended := true, endCount := 1 },
        events := [Event.counterAdd "api.user.requests" 1 [("user.id.path", userId)],
                   Event.spanStart sid "get_user_handler",
                   Event.spanEnd sid],
        calleeSpans := (d (inject (outboundCtx tid sid))).calleeSpans,
        calleeEvents := (d (inject (outboundCtx tid sid))).calleeEvents } := by
  simp [get_user, withSpan, outboundCtx] at ho ⊢
  simp [ho, hst, startSpan, Span.setAttribute, Span.endSpan]

/-- The complete gateway run when the downstream exchange completes with a
non-2xx status: httpx raise_for_status raises HTTPStatusError, the handler
catches it, records http.status_code, and returns the typed error dict. -/
theorem get_user_statusError_eq (userId : String) (tid sid : Nat) (p : Option Nat)
    (d : Headers → DownstreamResult) (st : Nat) (b : Option JObj)
    (ho : (d (inject (outboundCtx tid sid))).outcome = DownstreamOutcome.reply st b)
    (hst : isSuccessStatus st = false) :
    get_user userId tid sid p d =
      { response := { status := 200, body := downstreamErrorBody st },
        span := { name := "get_user_handler", traceId := tid, spanId := sid,
                  parentSpanId := p,
                  attributes := [("user.id", AttrValue.str userId),
                                 ("http.status_code", AttrValue.int (Int.ofNat st))],
                  status := SpanStatus.unset, ended := true, endCount := 1 },
        events := [Event.counterAdd "api.user.requests" 1 [("user.id.path", userId)],
                   Event.spanStart sid "get_user_handler",
                   Event.spanEnd sid],
        calleeSpans := (d (inject (outboundCtx tid sid))).calleeSpans,
        calleeEvents := (d (inject (outboundCtx tid sid))).calleeEvents } := by
  simp [get_user, withSpan, outboundCtx] at ho ⊢
  cases b with
  | none => simp [ho, hst, startSpan, Span.setAttribute, Span.endSpan]
  | some bo => simp [ho, hst, startSpan, Span.setAttribute, Span.endSpan]

/-- The complete gateway run when the outbound call itself raises
(transport failure): the catch-all branch records error=True and returns
the generic internal-error dict; no status code attribute is set. -/
theorem get_user_failure_eq (userId : String) (tid sid : Nat) (p : Option Nat)
    (d : Headers → DownstreamResult)
    (ho : (d (inject (outboundCtx tid sid))).outcome = DownstreamOutcome.failure) :
    get_user userId tid sid p d =
      { response := { status := 200, body := internalErrorBody },
        span := { name := "get_user_handler", traceId := tid, spanId := sid,
                  parentSpanId := p,
                  attributes := [("user.id", AttrValue.str userId),
                                 ("error", AttrValue.bool true)],
                  status := SpanStatus.unset, ended := true, endCount := 1 },
        events := [Event.counterAdd "api.user.requests" 1 [("user.id.path", userId)],
                   Event.spanStart sid "get_user_handler",
                   Event.spanEnd sid],
        calleeSpans := (d (inject (outboundCtx tid sid))).calleeSpans,
        calleeEvents := (d (inject (outboundCtx tid sid))).calleeEvents } := by
  simp [get_user, withSpan, outboundCtx] at ho ⊢
  simp [ho, startSpan, Span.setAttribute, Span.endSpan]

/-- The complete gateway run when the downstream exchange completes with a
2xx status but an undecodable body: response.json() raises, the catch-all
branch records error=True, and no status code attribute is set. -/
theorem get_user_badJson_eq (userId : String) (tid sid : Nat) (p : Option Nat)
    (d : Headers → DownstreamResult) (st : Nat)
    (ho : (d (inject (outboundCtx tid sid))).outcome = DownstreamOutcome.reply st none)
    (hst : isSuccessStatus st = true) :
    get_user userId tid sid p d =
      { response := { status := 200, body := internalErrorBody },
        span := { name := "get_user_handler", traceId := tid, spanId := sid,
                  parentSpanId := p,
                  attributes := [("user.id", AttrValue.str userId),
                                 ("error", AttrValue.bool true)],
                  status := SpanStatus.unset, ended := true, endCount := 1 },
        events := [Event.counterAdd "api.user.requests" 1 [("user.id.path", userId)],
                   Event.spanStart sid "get_user_handler",
                   Event.spanEnd sid],
        calleeSpans := (d (inject (outboundCtx tid sid))).calleeSpans,
        calleeEvents := (d (inject (outboundCtx tid sid))).calleeEvents } := by
  simp [get_user, withSpan, outboundCtx] at ho ⊢
  simp [ho, hst, startSpan, Span.setAttribute, Span.endSpan]

end Gateway

namespace SystemModel

open Otel UserService Gateway

/-- The complete end-to-end run for a user id present in FAKE_DB. -/
theorem handle_found_eq (userId : String) (u : User)
    (h : List.lookup userId FAKE_DB = some u) (tid sid ftid usSid : Nat) :
    SystemModel.handle userId tid sid ftid usSid =
      { response := { status := 200, body := u.toJson },
        span := { name := "get_user_handler", traceId := tid, spanId := sid,
                  parentSpanId := none,
                  attributes := [("user.id", AttrValue.str userId),
                                 ("http.status_code", AttrValue.int 200)],
                  status := SpanStatus.unset, ended := true, endCount := 1 },
        events := [Event.counterAdd "api.user.requests" 1 [("user.id.path", userId)],
                   Event.spanStart sid "get_user_handler",
                   Event.spanEnd sid],
        calleeSpans := [{ name := "find_user_in_db", traceId := tid, spanId := usSid,
                          parentSpanId := some sid,
                          attributes := [("user.id", AttrValue.str userId),
                                         ("user.found", AttrValue.bool true),
                                         ("user.username", AttrValue.str u.username)],
                          status := SpanStatus.unset, ended := true, endCount := 1 }],
        calleeEvents := [Event.spanStart usSid "find_user_in_db",
                         Event.counterAdd "db.user.lookups" 1 [("user.found", "true")],
                         Event.spanEnd usSid] } := by
  have hus := get_user_internal_found_eq userId tid usSid (some sid) u h
  have ho : (callUserService userId ftid usSid (inject (outboundCtx tid sid))).outcome
      = DownstreamOutcome.reply 200 (some u.toJson) := by
    simp [callUserService, UserService.handle, inject, outboundCtx, hus]
  rw [SystemModel.handle, Gateway.get_user_success_eq userId tid sid none _ 200 u.toJson ho rfl]
  simp [callUserService, UserService.handle, inject, outboundCtx, hus]

/-- The complete end-to-end run for a user id absent from FAKE_DB: the
lookup raises a 404 downstream, the gateway maps it to a 200 response
whose body carries the 404. -/
theorem handle_notfound_eq (userId : String)
    (h : List.lookup userId FAKE_DB = none) (tid sid ftid usSid : Nat) :
    SystemModel.handle userId tid sid ftid usSid =
      { response := { status := 200, body := downstreamErrorBody 404 },
        span := { name := "get_user_handler", traceId := tid, spanId := sid,
                  parentSpanId := none,
                  attributes := [("user.id", AttrValue.str userId),
                                 ("http.status_code", AttrValue.int 404)],
                  status := SpanStatus.unset, ended := true, endCount := 1 },
        events := [Event.counterAdd "api.user.requests" 1 [("user.id.path", userId)],
                   Event.spanStart sid "get_user_handler",
                   Event.spanEnd sid],
        calleeSpans := [{ name := "find_user_in_db", traceId := tid, spanId := usSid,
                          parentSpanId := some sid,
                          attributes := [("user.id", AttrValue.str userId),
                                         ("error", AttrValue.bool true),
                                         ("user.found", AttrValue.bool false)],
                          status := SpanStatus.error, ended := true, endCount := 1 }],
        calleeEvents := [Event.spanStart usSid "find_user_in_db",
                         Event.counterAdd "db.user.lookups" 1 [("user.found", "false")],
                         Event.spanEnd usSid] } := by
  have hus := get_user_internal_notfound_eq userId tid usSid (some sid) h
  have ho : (callUserService userId ftid usSid (inject (outboundCtx tid sid))).outcome
      = DownstreamOutcome.reply 404
          (some [("detail", JVal.jstr "User not found")]) := by
    simp [callUserService, UserService.handle, inject, outboundCtx, hus]
  rw [SystemModel.handle, Gateway.get_user_statusError_eq userId tid sid none _ 404 _ ho rfl]
  simp [callUserService, UserService.handle, inject, outboundCtx, hus]

end SystemModel

open Otel UserService Gateway

/-- C1: For every request that crosses the gateway to lookup-service
boundary, the trace_id recorded in the gateway span and in the lookup
service span is identical, and the lookup service span has parent_span_id
equal to the span_id of the gateway-side span for that request: the
correlation context survives injection into the outbound headers and
extraction by the callee. Stated for every user id and every choice of
identifiers. -/
theorem c1_trace_propagation (userId : String) (tid sid ftid usSid : Nat) :
    ((SystemModel.handle userId tid sid ftid usSid).calleeSpans.map
        fun s => (s.traceId, s.parentSpanId))
      = [((SystemModel.handle userId tid sid ftid usSid).span.traceId,
          some (SystemModel.handle userId tid sid ftid usSid).span.spanId)] := by
  cases hl : List.lookup userId FAKE_DB with
  | none => rw [SystemModel.handle_notfound_eq userId hl tid sid ftid usSid]; rfl
  | some u => rw [SystemModel.handle_found_eq userId u hl tid sid ftid usSid]; rfl

/-- C2: For every request handled by either service — for every downstream
behavior of the gateway call and every inbound propagation header of the
lookup service — exactly one span is opened and that span is ended exactly
once; no span is leaked unended and no span is ended twice. -/
theorem c2_span_lifecycle (userId : String) (tid sid : Nat) (p : Option Nat)
    (d : Headers → DownstreamResult) (h : Headers) (ftid usSid : Nat) :
    ((Gateway.get_user userId tid sid p d).span.ended = true
      ∧ (Gateway.get_user userId tid sid p d).span.endCount = 1
      ∧ countStarts (Gateway.get_user userId tid sid p d).events = 1
      ∧ countEnds (Gateway.get_user userId tid sid p d).events = 1)
    ∧ (((UserService.handle userId h ftid usSid).spans.map
          fun s => (s.ended, s.endCount)) = [(true, 1)]
      ∧ countStarts (UserService.handle userId h ftid usSid).events = 1
      ∧ countEnds (UserService.handle userId h ftid usSid).events = 1) := by
  constructor
  · cases ho : (d (inject (outboundCtx tid sid))).outcome with
    | failure =>
        rw [Gateway.get_user_failure_eq userId tid sid p d ho]
        exact ⟨rfl, rfl, rfl, rfl⟩
    | reply st b =>
        cases hst : isSuccessStatus st with
        | false =>
            rw [Gateway.get_user_statusError_eq userId tid sid p d st b ho hst]
            exact ⟨rfl, rfl, rfl, rfl⟩
        | true =>
            cases b with
            | some bo =>
                rw [Gateway.get_user_success_eq userId tid sid p d st bo ho hst]
                exact ⟨rfl, rfl, rfl, rfl⟩
            | none =>
                rw [Gateway.get_user_badJson_eq userId tid sid p d st ho hst]
                exact ⟨rfl, rfl, rfl, rfl⟩
  · have key : ∀ t s pp,
        ((get_user_internal userId t s pp).spans.map
            fun sp => (sp.ended, sp.endCount)) = [(true, 1)]
        ∧ countStarts (get_user_internal userId t s pp).events = 1
        ∧ countEnds (get_user_internal userId t s pp).events = 1 := by
      intro t s pp
      cases hl : List.lookup userId FAKE_DB with
      | none =>
          rw [get_user_internal_notfound_eq userId t s pp hl]
          exact ⟨rfl, rfl, rfl⟩
      | some u =>
          rw [get_user_internal_found_eq userId t s pp u hl]
          exact ⟨rfl, rfl, rfl⟩
    cases h with
    | none => exact key ftid usSid none
    | some ctx => exact key ctx.traceId usSid (some ctx.spanId)

/-- C3: A request for the known subject "123" succeeds: the gateway
returns status 200 with the expected user JSON, and the gateway and
lookup-service spans share one trace_id. -/
theorem c3_known_subject_scenario :
    (SystemModel.handle "123" 7 11 13 17).response =
      { status := 200,
        body := [("id", JVal.jstr "123"), ("username", JVal.jstr "otelfan"),
                 ("email", JVal.jstr "otel@example.com")] }
    ∧ ((SystemModel.handle "123" 7 11 13 17).calleeSpans.map Span.traceId)
        = [(SystemModel.handle "123" 7 11 13 17).span.traceId] := by
  constructor <;> rfl

/-- C4: For every request for a subject absent from the database, the
lookup-service span carries user.found=false and error=true, and the
gateway returns the body with error text and status 404 to the external
caller. -/
theorem c4_unknown_subject_attributes (userId : String)
    (h : List.lookup userId FAKE_DB = none) (tid sid ftid usSid : Nat) :
    ((SystemModel.handle userId tid sid ftid usSid).calleeSpans.map
        fun s => (s.getAttribute "user.found", s.getAttribute "error"))
      = [(some (AttrValue.bool false), some (AttrValue.bool true))]
    ∧ (SystemModel.handle userId tid sid ftid usSid).response.body
        = [("error", JVal.jstr "Failed to retrieve user data"),
           ("status", JVal.jnum 404)] := by
  rw [SystemModel.handle_notfound_eq userId h tid sid ftid usSid]
  exact ⟨rfl, rfl⟩

/-- Witness for C4 at the concrete unknown subject "999". -/
theorem c4_unknown_subject_attributes_witness :
    ((SystemModel.handle "999" 1 2 3 4).calleeSpans.map
        fun s => (s.getAttribute "user.found", s.getAttribute "error"))
      = [(some (AttrValue.bool false), some (AttrValue.bool true))]
    ∧ (SystemModel.handle "999" 1 2 3 4).response.body
        = [("error", JVal.jstr "Failed to retrieve user data"),
           ("status", JVal.jnum 404)] :=
  c4_unknown_subject_attributes "999" (by decide) 1 2 3 4

/-- C5 counterexample: on a downstream not-found (status 404 observed by
the gateway through the real user service), the gateway span does NOT get
the attribute error=true and its status is NOT set to Error — the
HTTPStatusError branch only records http.status_code, and because the
exception is caught inside the span block the status stays Unset. -/
theorem c5_counterexample :
    ¬ ((SystemModel.handle "999" 1 2 3 4).span.getAttribute "error"
          = some (AttrValue.bool true)
       ∧ (SystemModel.handle "999" 1 2 3 4).span.status = SpanStatus.error) := by
  decide

/-- C5 amended: for every downstream exchange with a non-2xx status, the
gateway records the numeric downstream status in http.status_code on its
span and returns the typed failure body (not a raw exception); the
error=true attribute is not set and the span status remains Unset; the
span is still ended. -/
theorem c5_downstream_error_amended (userId : String) (tid sid : Nat)
    (p : Option Nat) (d : Headers → DownstreamResult) (st : Nat) (b : Option JObj)
    (ho : (d (inject (outboundCtx tid sid))).outcome = DownstreamOutcome.reply st b)
    (hst : isSuccessStatus st = false) :
    (Gateway.get_user userId tid sid p d).span.getAttribute "http.status_code"
        = some (AttrValue.int (Int.ofNat st))
    ∧ (Gateway.get_user userId tid sid p d).response
        = { status := 200, body := downstreamErrorBody st }
    ∧ (Gateway.get_user userId tid sid p d).span.getAttribute "error" = none
    ∧ (Gateway.get_user userId tid sid p d).span.status = SpanStatus.unset
    ∧ (Gateway.get_user userId tid sid p d).span.ended = true := by
  rw [Gateway.get_user_statusError_eq userId tid sid p d st b ho hst]
  exact ⟨rfl, rfl, rfl, rfl, rfl⟩

/-- Witness for the amended C5 at a concrete downstream 404 reply. -/
theorem c5_downstream_error_amended_witness :
    (Gateway.get_user "123" 1 2 none
        (fun _ => { outcome := DownstreamOutcome.reply 404 (some []),
                    calleeSpans := [], calleeEvents := [] })).span.getAttribute
        "http.status_code" = some (AttrValue.int (Int.ofNat 404))
    ∧ (Gateway.get_user "123" 1 2 none
        (fun _ => { outcome := DownstreamOutcome.reply 404 (some []),
                    calleeSpans := [], calleeEvents := [] })).response
        = { status := 200, body := downstreamErrorBody 404 }
    ∧ (Gateway.get_user "123" 1 2 none
        (fun _ => { outcome := DownstreamOutcome.reply 404 (some []),
                    calleeSpans := [], calleeEvents := [] })).span.getAttribute
        "error" = none
    ∧ (Gateway.get_user "123" 1 2 none
        (fun _ => { outcome := DownstreamOutcome.reply 404 (some []),
                    calleeSpans := [], calleeEvents := [] })).span.status
        = SpanStatus.unset
    ∧ (Gateway.get_user "123" 1 2 none
        (fun _ => { outcome := DownstreamOutcome.reply 404 (some []),
                    calleeSpans := [], calleeEvents := [] })).span.ended = true :=
  c5_downstream_error_amended "123" 1 2 none _ 404 (some []) rfl (by decide)

/-- C6 counterexample: on the successful known-subject request, neither
the gateway span nor the lookup-service span has its status set to Ok —
no branch of either handler ever calls set_status, so the status stays
Unset on success. -/
theorem c6_counterexample :
    (SystemModel.handle "123" 1 2 3 4).span.status ≠ SpanStatus.ok
    ∧ ((SystemModel.handle "123" 1 2 3 4).calleeSpans.map Span.status)
        ≠ [SpanStatus.ok] := by
  decide

/-- C6 amended: for every successful request outcome, the gateway span
gets the http.status_code attribute, the response payload is returned to
the caller, and both spans are ended — but no span status is ever set to
Ok: the status remains Unset; the lookup-service span records
user.found=true rather than a status-code attribute. -/
theorem c6_success_amended (userId : String) (u : User)
    (h : List.lookup userId FAKE_DB = some u) (tid sid ftid usSid : Nat) :
    (SystemModel.handle userId tid sid ftid usSid).span.getAttribute "http.status_code"
        = some (AttrValue.int 200)
    ∧ (SystemModel.handle userId tid sid ftid usSid).response
        = { status := 200, body := u.toJson }
    ∧ (SystemModel.handle userId tid sid ftid usSid).span.ended = true
    ∧ (SystemModel.handle userId tid sid ftid usSid).span.status = SpanStatus.unset
    ∧ ((SystemModel.handle userId tid sid ftid usSid).calleeSpans.map
        fun s => (s.getAttribute "user.found", s.status, s.ended))
        = [(some (AttrValue.bool true), SpanStatus.unset, true)] := by
  rw [SystemModel.handle_found_eq userId u h tid sid ftid usSid]
  exact ⟨rfl, rfl, rfl, rfl, rfl⟩

/-- Witness for the amended C6 at the concrete known subject "123". -/
theorem c6_success_amended_witness :
    (SystemModel.handle "123" 1 2 3 4).span.getAttribute "http.status_code"
        = some (AttrValue.int 200)
    ∧ (SystemModel.handle "123" 1 2 3 4).response
        = { status := 200,
            body := User.toJson { id := "123", username := "otelfan",
                                  email := "otel@example.com" } }
    ∧ (SystemModel.handle "123" 1 2 3 4).span.ended = true
    ∧ (SystemModel.handle "123" 1 2 3 4).span.status = SpanStatus.unset
    ∧ ((SystemModel.handle "123" 1 2 3 4).calleeSpans.map
        fun s => (s.getAttribute "user.found", s.status, s.ended))
        = [(some (AttrValue.bool true), SpanStatus.unset, true)] :=
  c6_success_amended "123"
    { id := "123", username := "otelfan", email := "otel@example.com" }
    (by decide) 1 2 3 4

/-- C7 counterexample: when the downstream service is unreachable, the
gateway span status is NOT set to Error — the exception is caught inside
the span block, so the status stays Unset. -/
theorem c7_counterexample :
    (Gateway.get_user "123" 1 2 none SystemModel.transportDown).span.status
      ≠ SpanStatus.error := by
  decide

/-- C7 amended: for every transport or unexpected failure of the outbound
call, the gateway span carries error=true with no status code attribute,
the gateway returns the generic internal-error payload, and the span is
ended exactly once — but the span status is not set to Error: it remains
Unset. -/
theorem c7_transport_failure_amended (userId : String) (tid sid : Nat)
    (p : Option Nat) (d : Headers → DownstreamResult)
    (ho : (d (inject (outboundCtx tid sid))).outcome = DownstreamOutcome.failure) :
    (Gateway.get_user userId tid sid p d).span.getAttribute "error"
        = some (AttrValue.bool true)
    ∧ (Gateway.get_user userId tid sid p d).span.getAttribute "http.status_code" = none
    ∧ (Gateway.get_user userId tid sid p d).response
        = { status := 200, body := internalErrorBody }
    ∧ (Gateway.get_user userId tid sid p d).span.ended = true
    ∧ (Gateway.get_user userId tid sid p d).span.endCount = 1
    ∧ (Gateway.get_user userId tid sid p d).span.status = SpanStatus.unset := by
  rw [Gateway.get_user_failure_eq userId tid sid p d ho]
  exact ⟨rfl, rfl, rfl, rfl, rfl, rfl⟩

/-- Witness for the amended C7 with an unreachable downstream service. -/
theorem c7_transport_failure_amended_witness :
    (Gateway.get_user "123" 1 2 none SystemModel.transportDown).span.getAttribute
        "error" = some (AttrValue.bool true)
    ∧ (Gateway.get_user "123" 1 2 none SystemModel.transportDown).span.getAttribute
        "http.status_code" = none
    ∧ (Gateway.get_user "123" 1 2 none SystemModel.transportDown).response
        = { status := 200, body := internalErrorBody }
    ∧ (Gateway.get_user "123" 1 2 none SystemModel.transportDown).span.ended = true
    ∧ (Gateway.get_user "123" 1 2 none SystemModel.transportDown).span.endCount = 1
    ∧ (Gateway.get_user "123" 1 2 none SystemModel.transportDown).span.status
        = SpanStatus.unset :=
  c7_transport_failure_amended "123" 1 2 none SystemModel.transportDown rfl

/-- C8 counterexample: for the unknown subject "999" the outward HTTP
status the gateway sends is 200, not a non-200 not-found status — the
handler returns a plain dict on the error path, which FastAPI wraps in an
HTTP 200; the 404 appears only inside the body. -/
theorem c8_counterexample :
    (SystemModel.handle "999" 1 2 3 4).response.status = 200
    ∧ (SystemModel.handle "999" 1 2 3 4).response.body
        = [("error", JVal.jstr "Failed to retrieve user data"),
           ("status", JVal.jnum 404)] := by
  decide

/-- C8 amended: when the subject is not found downstream, the gateway
sends an outward HTTP response with status 200 whose body is the error
object carrying status 404 — not-found is signalled only inside the body,
never in the outward HTTP status. -/
theorem c8_notfound_outward_amended (userId : String)
    (h : List.lookup userId FAKE_DB = none) (tid sid ftid usSid : Nat) :
    (SystemModel.handle userId tid sid ftid usSid).response
      = { status := 200,
          body := [("error", JVal.jstr "Failed to retrieve user data"),
                   ("status", JVal.jnum 404)] } := by
  rw [SystemModel.handle_notfound_eq userId h tid sid ftid usSid]
  rfl

/-- Witness for the amended C8 at the concrete unknown subject "999". -/
theorem c8_notfound_outward_amended_witness :
    (SystemModel.handle "999" 1 2 3 4).response
      = { status := 200,
          body := [("error", JVal.jstr "Failed to retrieve user data"),
                   ("status", JVal.jnum 404)] } :=
  c8_notfound_outward_amended "999" (by decide) 1 2 3 4

/-- The gateway emits the same event trace on every branch: the request
counter increment (before the span opens), then span start, then span
end. -/
theorem gateway_events_shape (userId : String) (tid sid : Nat) (p : Option Nat)
    (d : Headers → DownstreamResult) :
    (Gateway.get_user userId tid sid p d).events
      = [Event.counterAdd "api.user.requests" 1 [("user.id.path", userId)],
         Event.spanStart sid "get_user_handler", Event.spanEnd sid] := by
  cases ho : (d (inject (outboundCtx tid sid))).outcome with
  | failure => rw [Gateway.get_user_failure_eq userId tid sid p d ho]
  | reply st b =>
      cases hst : isSuccessStatus st with
      | false => rw [Gateway.get_user_statusError_eq userId tid sid p d st b ho hst]
      | true =>
          cases b with
          | some bo => rw [Gateway.get_user_success_eq userId tid sid p d st bo ho hst]
          | none => rw [Gateway.get_user_badJson_eq userId tid sid p d st ho hst]

/-- The lookup service emits span start, then exactly one lookup counter
increment whose user.found tag is the string "true" or "false" according
to whether the user id is in FAKE_DB, then span end. -/
theorem userService_events_shape (userId : String) (h : Headers) (ftid usSid : Nat) :
    (UserService.handle userId h ftid usSid).events
      = [Event.spanStart usSid "find_user_in_db",
         Event.counterAdd "db.user.lookups" 1
           [("user.found", if (List.lookup userId FAKE_DB).isSome then "true" else "false")],
         Event.spanEnd usSid] := by
  have key : ∀ t s pp, (get_user_internal userId t s pp).events
      = [Event.spanStart s "find_user_in_db",
         Event.counterAdd "db.user.lookups" 1
           [("user.found", if (List.lookup userId FAKE_DB).isSome then "true" else "false")],
         Event.spanEnd s] := by
    intro t s pp
    cases hl : List.lookup userId FAKE_DB with
    | none => rw [get_user_internal_notfound_eq userId t s pp hl]; rfl
    | some u => rw [get_user_internal_found_eq userId t s pp u hl]; rfl
  cases h with
  | none => exact key ftid usSid none
  | some ctx => exact key ctx.traceId usSid (some ctx.spanId)

/-- The lookup service span carries the boolean attribute user.found
matching whether the user id is in FAKE_DB. -/
theorem userService_span_userFound (userId : String) (h : Headers) (ftid usSid : Nat) :
    ((UserService.handle userId h ftid usSid).spans.map
        fun s => s.getAttribute "user.found")
      = [some (AttrValue.bool (List.lookup userId FAKE_DB).isSome)] := by
  have key : ∀ t s pp, ((get_user_internal userId t s pp).spans.map
        fun sp => sp.getAttribute "user.found")
      = [some (AttrValue.bool (List.lookup userId FAKE_DB).isSome)] := by
    intro t s pp
    cases hl : List.lookup userId FAKE_DB with
    | none => rw [get_user_internal_notfound_eq userId t s pp hl]; rfl
    | some u => rw [get_user_internal_found_eq userId t s pp u hl]; rfl
  cases h with
  | none => exact key ftid usSid none
  | some ctx => exact key ctx.traceId usSid (some ctx.spanId)

/-- C9: Counter updates are monotone: for both services, every counter
increment in every request trace has delta exactly 1 (a positive delta),
and replaying any request trace onto any counter state never decreases
the value of any attribute-tag combination — the model has no reset or
decrement operation. -/
theorem c9_counters_monotone (userId : String) (tid sid : Nat) (p : Option Nat)
    (d : Headers → DownstreamResult) (h : Headers) (ftid usSid : Nat)
    (st : CounterState) (k : CounterKey) :
    (allAddsUnit (Gateway.get_user userId tid sid p d).events = true
      ∧ counterValue st k
          ≤ counterValue (applyEvents st (Gateway.get_user userId tid sid p d).events) k)
    ∧ (allAddsUnit (UserService.handle userId h ftid usSid).events = true
      ∧ counterValue st k
          ≤ counterValue
              (applyEvents st (UserService.handle userId h ftid usSid).events) k) := by
  refine ⟨⟨?_, counterValue_applyEvents_le _ _ _⟩,
          ⟨?_, counterValue_applyEvents_le _ _ _⟩⟩
  · rw [gateway_events_shape userId tid sid p d]; rfl
  · rw [userService_events_shape userId h ftid usSid]; rfl

/-- C10: Every handler invocation increments its counter exactly once,
regardless of outcome. The gateway increments api.user.requests tagged
user.id.path before opening its span (the increment is the first event,
ahead of the span start) for every downstream behavior; the lookup
service emits exactly one db.user.lookups increment whose user.found tag
is the STRING "true" or "false", while the span attribute user.found is
the BOOLEAN of the same fact — the increment happens also when the user
is not found and the 404 is raised. -/
theorem c10_counter_per_invocation (userId : String) (tid sid : Nat) (p : Option Nat)
    (d : Headers → DownstreamResult) (h : Headers) (ftid usSid : Nat) :
    (Gateway.get_user userId tid sid p d).events.take 2
        = [Event.counterAdd "api.user.requests" 1 [("user.id.path", userId)],
           Event.spanStart sid "get_user_handler"]
    ∧ counterAdds (Gateway.get_user userId tid sid p d).events
        = [("api.user.requests", 1, [("user.id.path", userId)])]
    ∧ counterAdds (UserService.handle userId h ftid usSid).events
        = [("db.user.lookups", 1,
            [("user.found",
              if (List.lookup userId FAKE_DB).isSome then "true" else "false")])]
    ∧ ((UserService.handle userId h ftid usSid).spans.map
        fun s => s.getAttribute "user.found")
        = [some (AttrValue.bool (List.lookup userId FAKE_DB).isSome)] := by
  rw [gateway_events_shape userId tid sid p d,
      userService_events_shape userId h ftid usSid,
      userService_span_userFound userId h ftid usSid]
  exact ⟨rfl, rfl, rfl, rfl⟩
